import Mathlib

/-!
Verification of the token-lifecycle / event-polling logic of the
calendar-sync repository (Next.js + React calendar viewer).

The relevant source functions are shallowly embedded:

* `useCalendarEvents` (hooks file, the four-argument variant used by
  `page.tsx`): the query function, its error classification
  (`isAuthError`) and its retry policy.
* `useAuth`: `isTokenExpired`, `logout`, `refreshAccessToken`.
* the OAuth code-exchange API route and `saveTokensToStorage` from the
  OAuth callback page.
* the events API route's date-range translation (`getCalendarEvents`).
* `createChannelId` / `extractUserIdFromChannelId` from the watch and
  webhook routes.

JavaScript strings are modelled as Lean `String` (a list of characters),
`String.prototype.includes` as substring containment, epoch-millisecond
timestamps as `Int`, and the asynchronous environment (HTTP outcomes) as
explicit oracle values.
-/

/-- JS `listStartsWith s pat` : does `s` start with `pat`?
(character-list model of `String.prototype.startsWith`). -/
def listStartsWith : List Char → List Char → Bool
  | _, [] => true
  | [], _ :: _ => false
  | c :: cs, p :: ps => c == p && listStartsWith cs ps

/-- Character-list model of JS `String.prototype.includes`:
`pat` occurs contiguously in `s`. -/
def listContainsSub : List Char → List Char → Bool
  | [], pat => pat.isEmpty
  | s@(_ :: cs), pat => listStartsWith s pat || listContainsSub cs pat

/-- `s.includes(pat)` on Lean strings. -/
def strIncludes (s pat : String) : Bool :=
  listContainsSub s.toList pat.toList

/-- Specification-level statement that `pat` occurs contiguously in `s`. -/
def ContainsSub (s pat : String) : Prop :=
  ∃ l r, s.toList = l ++ pat.toList ++ r

/-- The `isAuthError` classification of `useCalendarEvents`
(both in the query function and in the retry policy): an error message is
an auth error exactly when it contains one of the five keywords. -/
def isAuthErrorMsg (msg : String) : Bool :=
  strIncludes msg "token" || strIncludes msg "auth" ||
    strIncludes msg "authentication" || strIncludes msg "unauthorized" ||
    strIncludes msg "401"

/-- The `retry` option of `useCalendarEvents`: never retry an auth error,
otherwise retry while `failureCount < 3`. -/
def retryPolicy (failureCount : Nat) (msg : String) : Bool :=
  if isAuthErrorMsg msg then false else failureCount < 3

example : isAuthErrorMsg "401 unauthorized" = true := by decide
example : isAuthErrorMsg "Token expired and refresh failed" = false := by decide
example : strIncludes "unauthorized" "auth" = true := by decide
example : retryPolicy 2 "network down" = true := by decide
example : retryPolicy 3 "network down" = false := by decide

/-- Outcome of one call to `fetchCalendarEvents`: either a resolved list of
events (modelled by their ids) or a rejection carrying the error message. -/
inductive FetchOutcome where
  | ok (events : List String)
  | err (msg : String)
deriving DecidableEq, Repr

/-- Outcome of one call to the injected `refreshToken` function:
a new token, a resolved `null`, or a rejection. -/
inductive RefreshOutcome where
  | ok (tok : String)
  | nullToken
  | raise (msg : String)
deriving DecidableEq, Repr

/-- Oracle environment for one invocation of the query function of
`useCalendarEvents`: what `isTokenExpired()` returns, whether a
`refreshToken` function was supplied, and the outcome of the i-th
refresh / events-endpoint call made during the invocation. -/
structure QueryEnv where
  tokenExpired : Bool
  hasRefresh : Bool
  refreshResults : Nat → RefreshOutcome
  fetchResults : Nat → FetchOutcome

/-- Result of one invocation of the query function: the settled value and
how many refresh calls and events-endpoint requests were issued. -/
structure QueryRun where
  result : Except String (List String)
  refreshCalls : Nat
  fetchCalls : Nat
deriving Repr

/-- The `catch (error)` block of the query function of `useCalendarEvents`,
entered with error message `errMsg` after `nR` refresh calls and `nF`
events requests: if the error is classified as an auth error and a refresh
function exists, perform one refresh and (on a non-null token) one retry
inside an inner try whose catch rethrows a fixed message; otherwise
rethrow the original error. -/
def runCatch (env : QueryEnv) (errMsg : String) (nR nF : Nat) : QueryRun :=
  if isAuthErrorMsg errMsg && env.hasRefresh then
    match env.refreshResults nR with
    | .raise _ =>
        ⟨.error "Authentication failed. Please sign in again.", nR + 1, nF⟩
    | .nullToken => ⟨.error errMsg, nR + 1, nF⟩
    | .ok _ =>
        match env.fetchResults nF with
        | .ok evs => ⟨.ok evs, nR + 1, nF + 1⟩
        | .err _ =>
            ⟨.error "Authentication failed. Please sign in again.", nR + 1, nF + 1⟩
  else ⟨.error errMsg, nR, nF⟩

/-- One invocation of the query function of `useCalendarEvents` (the
four-argument variant used by `page.tsx`): a proactive expiry check with
refresh, then the fetch, with the catch block `runCatch` around both. -/
def queryFn (env : QueryEnv) : QueryRun :=
  if env.tokenExpired then
    if env.hasRefresh then
      match env.refreshResults 0 with
      | .raise m => runCatch env m 1 0
      | .nullToken => runCatch env "Token expired and refresh failed" 1 0
      | .ok _ =>
          match env.fetchResults 0 with
          | .ok evs => ⟨.ok evs, 1, 1⟩
          | .err m => runCatch env m 1 1
    else runCatch env "Token expired and refresh failed" 0 0
  else
    match env.fetchResults 0 with
    | .ok evs => ⟨.ok evs, 0, 1⟩
    | .err m => runCatch env m 0 1

/-- `5 * 60 * 1000` ms, the pre-expiry window of `useAuth`. -/
def fiveMinutes : Int := 5 * 60 * 1000

/-- `isTokenExpired` of `useAuth`: `true` when no expiry is stored,
otherwise `currentTime >= expiryTime - fiveMinutes`.  The persisted value
is stored as the decimal string of the epoch-ms timestamp and read back
with `parseInt`; it is modelled here directly as an `Option Int`. -/
def isTokenExpired (storedExpiry : Option Int) (now : Int) : Bool :=
  match storedExpiry with
  | none => true
  | some expiryTime => decide (now ≥ expiryTime - fiveMinutes)

/-- Combined session state of `useAuth`: the three persisted
`localStorage` entries (`google_access_token`, `google_refresh_token`,
`google_token_expiry`) and the two in-memory React state variables. -/
structure AuthState where
  storedAccess : Option String
  storedRefresh : Option String
  storedExpiry : Option Int
  token : Option String
  refreshTok : Option String
deriving DecidableEq, Repr

/-- `logout` of `useAuth`: removes the three persisted entries and nulls
the two in-memory variables. -/
def logout (s : AuthState) : AuthState :=
  { s with
    storedAccess := none
    storedRefresh := none
    storedExpiry := none
    token := none
    refreshTok := none }

/-- The state in which nothing is persisted and the session is
unauthenticated. -/
def emptyAuthState : AuthState :=
  ⟨none, none, none, none, none⟩

/-- Outcome of the `/api/auth/refresh` HTTP call made by
`refreshAccessToken`: a successful JSON body (new access token and
`expires_in`), a non-ok HTTP response, or a network-level rejection. -/
inductive RefreshResponse where
  | ok (accessToken : String) (expiresIn : Int)
  | httpErr
  | netErr
deriving DecidableEq, Repr

/-- Result of one call to `refreshAccessToken`: the returned value, the
session state afterwards, and whether the network was contacted. -/
structure RefreshRun where
  result : Option String
  state : AuthState
  networkCalled : Bool
deriving DecidableEq, Repr

/-- `refreshAccessToken` of `useAuth`.  With no (or a falsy, empty-string)
refresh token it returns `null` at once.  Otherwise it POSTs to the
refresh endpoint; on success it persists the new access token and
`Date.now() + expires_in * 1000` and updates the in-memory token; on any
failure the catch block calls `logout()` and returns `null`. -/
def refreshAccessToken (s : AuthState) (now : Int) (resp : RefreshResponse) :
    RefreshRun :=
  match s.refreshTok with
  | none => ⟨none, s, false⟩
  | some rt =>
    if rt = "" then ⟨none, s, false⟩
    else
      match resp with
      | .ok newToken expiresIn =>
          let expiryTime := now + expiresIn * 1000
          ⟨some newToken,
           { s with
             storedAccess := some newToken
             storedExpiry := some expiryTime
             token := some newToken },
           true⟩
      | .httpErr => ⟨none, logout s, true⟩
      | .netErr => ⟨none, logout s, true⟩

/-- The credentials object returned by `oAuth2Client.getToken` in
`exchangeCodeForTokens` (api/utils.ts).  Its `expiry_date` field is the
absolute expiry moment in epoch milliseconds. -/
structure GoogleTokens where
  access_token : String
  refresh_token : String
  expiry_date : Int
deriving DecidableEq, Repr

/-- The `data` payload of a success response of the code-exchange route
(`POST /api/auth`). -/
structure AuthResponseData where
  access_token : String
  refresh_token : String
  expires_in : Int
deriving DecidableEq, Repr

/-- The code-exchange route's response mapping: it places
`tokens.expiry_date` under the key `expires_in`. -/
def authExchangeResponseData (tokens : GoogleTokens) : AuthResponseData :=
  { access_token := tokens.access_token
    refresh_token := tokens.refresh_token
    expires_in := tokens.expiry_date }

/-- The three `localStorage` entries written by `saveTokensToStorage` in
the OAuth callback page (expiry modelled as the `Int` whose decimal
string is stored). -/
structure StoredTokens where
  accessToken : String
  refreshToken : String
  expiry : Int
deriving DecidableEq, Repr

/-- `saveTokensToStorage(accessToken, refreshToken, expiresIn)`: persists
the two tokens and `Date.now() + expiresIn * 1000`. -/
def saveTokensToStorage (accessToken refreshToken : String)
    (expiresIn now : Int) : StoredTokens :=
  ⟨accessToken, refreshToken, now + expiresIn * 1000⟩

/-- The expiry persisted after a code exchange: the OAuth callback feeds
the route's `expires_in` field into `saveTokensToStorage`. -/
def persistedExpiryAfterExchange (tokens : GoogleTokens) (now : Int) : Int :=
  (saveTokensToStorage (authExchangeResponseData tokens).access_token
      (authExchangeResponseData tokens).refresh_token
      (authExchangeResponseData tokens).expires_in now).expiry

/-- Milliseconds per day. -/
def msPerDay : Int := 86400000

/-- JS `new Date(dateString)` on a date-only ISO string (as produced by
`toISOString().split("T")[0]` in `page.tsx`): UTC midnight of that
calendar day.  The day is identified by its count of days since the
epoch. -/
def parseDateOnly (days : Int) : Int := days * msPerDay

/-- The last millisecond of a day: `23:59:59.999`. -/
def endOfDayMs : Int := 23 * 3600000 + 59 * 60000 + 59 * 1000 + 999

/-- JS `date.setHours(23, 59, 59, 999)`: keeps the LOCAL calendar day of
the instant and moves the local clock time to 23:59:59.999.  `offsetMs`
is `getTimezoneOffset() * 60000`, so that local time = UTC − offset. -/
def setHoursEndOfDay (epochMs offsetMs : Int) : Int :=
  let localMs := epochMs - offsetMs
  (Int.fdiv localMs msPerDay) * msPerDay + endOfDayMs + offsetMs

/-- `timeMin` sent upstream by `getCalendarEvents` for a filter whose
`startDate` parses to day `days`: `new Date(startDate).toISOString()`. -/
def timeMinOf (days : Int) : Int := parseDateOnly days

/-- `timeMax` sent upstream by `getCalendarEvents` for a filter whose
`endDate` parses to day `days`, in a zone with offset `offsetMs`:
the end date with its hours set to `23, 59, 59, 999`. -/
def timeMaxOf (days offsetMs : Int) : Int :=
  setHoursEndOfDay (parseDateOnly days) offsetMs

/-- The instant "day `days` at 00:00:00.000 local time" as epoch ms. -/
def localDayStart (days offsetMs : Int) : Int := days * msPerDay + offsetMs

/-- The instant "day `days` at 23:59:59.999 local time" as epoch ms. -/
def localDayEnd (days offsetMs : Int) : Int :=
  days * msPerDay + endOfDayMs + offsetMs

/-- The fixed channel-id marker `"calendar-watch-"` shared by the watch
route and the webhook route. -/
def channelIdMarker : String := "calendar-watch-"

/-- `createChannelId` of the watch route: prepend the marker. -/
def createChannelId (userId : String) : String :=
  channelIdMarker ++ userId

/-- Character-list model of JS `s.replace(pat, rep)` with a string
pattern: replace the FIRST occurrence of `pat`, or return `s` unchanged
when `pat` does not occur. -/
def replaceFirstList : List Char → List Char → List Char → List Char
  | [], pat, rep => if listStartsWith [] pat then rep else []
  | s@(c :: cs), pat, rep =>
    if listStartsWith s pat then rep ++ s.drop pat.length
    else c :: replaceFirstList cs pat rep

/-- `extractUserIdFromChannelId` of the webhook route: `"unknown"` for a
missing (or falsy, empty) channel id or one that does not start with the
marker; otherwise the channel id with the first occurrence of the marker
replaced by the empty string. -/
def extractUserIdFromChannelId (channelId : Option String) : String :=
  match channelId with
  | none => "unknown"
  | some cid =>
    if cid = "" then "unknown"
    else if listStartsWith cid.toList channelIdMarker.toList then
      ⟨replaceFirstList cid.toList channelIdMarker.toList []⟩
    else "unknown"

example : extractUserIdFromChannelId (some "calendar-watch-u123") = "u123" := by decide
example : extractUserIdFromChannelId (some "other") = "unknown" := by decide
example : extractUserIdFromChannelId none = "unknown" := by decide

/-- C2: for every stored expiry timestamp `t` and current time `now`,
`isTokenExpired` returns `true` iff `now >= t - 5 * 60 * 1000` ms;
equivalently the stored token counts as valid exactly when
`now < t - 5min`. -/
theorem isTokenExpired_iff_within_five_minutes (t now : Int) :
    (isTokenExpired (some t) now = true ↔ now ≥ t - 5 * 60 * 1000) ∧
    (isTokenExpired (some t) now = false ↔ now < t - 5 * 60 * 1000) := by
  constructor
  · simp [isTokenExpired, fiveMinutes]
  · simp [isTokenExpired, fiveMinutes]
    omega

/-- C8: `logout` (the `clear()` of the token store) is idempotent, and a
single application already yields the empty store in which all persisted
fields are removed and the in-memory token and refresh token are null. -/
theorem logout_idempotent (s : AuthState) :
    logout (logout s) = logout s ∧ logout s = emptyAuthState :=
  ⟨rfl, rfl⟩

/-- C9: with no refresh token in the session state, `refreshAccessToken`
returns `null` without touching the network and leaves the whole state —
in particular the persisted access-token and expiry entries — unchanged. -/
theorem refreshAccessToken_no_refresh_token (s : AuthState) (now : Int)
    (resp : RefreshResponse) (h : s.refreshTok = none) :
    refreshAccessToken s now resp = ⟨none, s, false⟩ := by
  simp [refreshAccessToken, h]

theorem refreshAccessToken_no_refresh_token_witness :
    refreshAccessToken ⟨some "a", some "r", some 1000, some "a", none⟩ 7 .httpErr
      = ⟨none, ⟨some "a", some "r", some 1000, some "a", none⟩, false⟩ :=
  refreshAccessToken_no_refresh_token
    ⟨some "a", some "r", some 1000, some "a", none⟩ 7 .httpErr rfl

/-- C3: whenever the upstream refresh call fails (non-ok HTTP response or
a thrown error), `refreshAccessToken` clears all three persisted token
fields, resets the in-memory session to unauthenticated, and returns
`null`. -/
theorem refreshAccessToken_failure_clears (s : AuthState) (now : Int)
    (resp : RefreshResponse) (rt : String) (hrt : s.refreshTok = some rt)
    (hne : rt ≠ "") (hfail : resp = .httpErr ∨ resp = .netErr) :
    refreshAccessToken s now resp = ⟨none, emptyAuthState, true⟩ := by
  rcases hfail with h | h <;> subst h <;>
    simp [refreshAccessToken, hrt, hne, logout, emptyAuthState]

theorem refreshAccessToken_failure_clears_witness :
    refreshAccessToken ⟨some "a", some "r", some 1000, some "a", some "r"⟩ 7 .httpErr
      = ⟨none, emptyAuthState, true⟩ :=
  refreshAccessToken_failure_clears
    ⟨some "a", some "r", some 1000, some "a", some "r"⟩ 7 .httpErr "r" rfl
    (by decide) (Or.inl rfl)

/-- C4: the claim says the code-exchange response carries the remaining
lifetime in seconds so that the persisted expiry equals the true expiry
moment; but the route returns the absolute epoch-ms `expiry_date` under
the key `expires_in`, and `saveTokensToStorage` then persists
`now + expiry_date * 1000`, which differs from the true expiry moment:
evaluated at `expiry_date = now = 1700000000000`. -/
theorem exchange_persisted_expiry_bug :
    persistedExpiryAfterExchange ⟨"at", "rt", 1700000000000⟩ 1700000000000
        = 1701700000000000 ∧
      (1701700000000000 : Int) ≠ 1700000000000 := by
  exact ⟨rfl, by decide⟩

/-- C7: the retry policy permits an automatic retry exactly when the error
is not classified as an auth error and the failure count is below 3; in
particular an auth-classified error is never retried. -/
theorem retryPolicy_iff_transient_and_below_three (n : Nat) (msg : String) :
    retryPolicy n msg = true ↔ (isAuthErrorMsg msg = false ∧ n < 3) := by
  unfold retryPolicy
  cases h : isAuthErrorMsg msg <;> simp [h]

theorem listStartsWith_iff (pat s : List Char) :
    listStartsWith s pat = true ↔ ∃ r, s = pat ++ r := by
  induction pat generalizing s with
  | nil =>
    cases s with
    | nil => simp [listStartsWith]
    | cons c cs => simp [listStartsWith]
  | cons p ps ih =>
    cases s with
    | nil => simp [listStartsWith]
    | cons c cs =>
      simp only [listStartsWith, Bool.and_eq_true, beq_iff_eq, ih,
        List.cons_append, List.cons.injEq]
      constructor
      · rintro ⟨rfl, r, rfl⟩
        exact ⟨r, rfl, rfl⟩
      · rintro ⟨r, rfl, rfl⟩
        exact ⟨rfl, r, rfl⟩

theorem listContainsSub_iff (pat s : List Char) :
    listContainsSub s pat = true ↔ ∃ l r, s = l ++ pat ++ r := by
  induction s with
  | nil =>
    simp only [listContainsSub, List.isEmpty_iff]
    constructor
    · rintro rfl
      exact ⟨[], [], rfl⟩
    · rintro ⟨l, r, h⟩
      rcases List.append_eq_nil.mp h.symm with ⟨h1, h2⟩
      exact (List.append_eq_nil.mp h1).2
  | cons c cs ih =>
    simp only [listContainsSub, Bool.or_eq_true, listStartsWith_iff, ih]
    constructor
    · rintro (⟨r, hr⟩ | ⟨l, r, hr⟩)
      · exact ⟨[], r, by simp [hr]⟩
      · exact ⟨c :: l, r, by simp [hr]⟩
    · rintro ⟨l, r, hr⟩
      cases l with
      | nil =>
        exact Or.inl ⟨r, by simpa using hr⟩
      | cons a l' =>
        rcases List.cons.injEq .. ▸ hr with ⟨rfl, h2⟩
        exact Or.inr ⟨l', r, by simpa using h2⟩

/-- C6: an error message is classified as an auth error exactly when it
contains (as a contiguous substring) at least one of the five keywords
`token`, `auth`, `authentication`, `unauthorized`, `401`; a message
containing none of them is classified transient (not retried as auth). -/
theorem isAuthErrorMsg_iff_keywords (msg : String) :
    isAuthErrorMsg msg = true ↔
      (ContainsSub msg "token" ∨ ContainsSub msg "auth" ∨
        ContainsSub msg "authentication" ∨ ContainsSub msg "unauthorized" ∨
        ContainsSub msg "401") := by
  simp only [isAuthErrorMsg, strIncludes, ContainsSub, Bool.or_eq_true,
    listContainsSub_iff]
  simp only [or_assoc]

theorem listStartsWith_append (p u : List Char) :
    listStartsWith (p ++ u) p = true := by
  induction p with
  | nil => cases u <;> rfl
  | cons c cs ih => simp [listStartsWith, ih]

theorem replaceFirstList_of_startsWith (s pat rep : List Char)
    (h : listStartsWith s pat = true) :
    replaceFirstList s pat rep = rep ++ s.drop pat.length := by
  cases s with
  | nil =>
    cases pat with
    | nil => simp [replaceFirstList, listStartsWith]
    | cons p ps => simp [listStartsWith] at h
  | cons c cs => simp [replaceFirstList, h]

/-- C10: channel-id round trip — extracting the user id from a channel id
built by `createChannelId` recovers exactly the original user id, for
every user-id string. -/
theorem extract_createChannelId_roundTrip (u : String) :
    extractUserIdFromChannelId (some (createChannelId u)) = u := by
  have hne : (createChannelId u) ≠ "" := by
    intro h
    have : (createChannelId u).data = [] := by rw [h]
    rw [createChannelId, String.data_append] at this
    exact absurd (List.append_eq_nil.mp this).1 (by decide)
  have hdata : (createChannelId u).toList =
      channelIdMarker.toList ++ u.toList := by
    simp [createChannelId, String.toList, String.data_append]
  have hsw : listStartsWith (createChannelId u).toList
      channelIdMarker.toList = true := by
    rw [hdata]; exact listStartsWith_append _ _
  rw [extractUserIdFromChannelId]
  rw [if_neg hne, if_pos hsw,
    replaceFirstList_of_startsWith _ _ _ hsw, hdata]
  simp [List.drop_left', String.toList]

/-- C5 counterexample: for day 19723 (2024-01-01) in a zone five hours
behind UTC (`getTimezoneOffset() = 300`, so offset 18000000 ms), the
upstream time bounds computed by `getCalendarEvents` are NOT the local
00:00:00.000–23:59:59.999 bounds of that day: `timeMin` is UTC midnight,
and `timeMax` is 23:59:59.999 local on the previous local day. -/
theorem calendar_day_bounds_nonutc_cex :
    ¬ (timeMinOf 19723 = localDayStart 19723 18000000 ∧
       timeMaxOf 19723 18000000 = localDayEnd 19723 18000000) := by
  decide

/-- C5 (amended): when the environment's UTC offset is zero, the upstream
time bounds for a single-day range on day `d` are exactly `d` at
00:00:00.000 through `d` at 23:59:59.999 (local = UTC). -/
theorem calendar_day_bounds_utc (days : Int) :
    timeMinOf days = localDayStart days 0 ∧
    timeMaxOf days 0 = localDayEnd days 0 := by
  constructor
  · simp [timeMinOf, parseDateOnly, localDayStart]
  · unfold timeMaxOf setHoursEndOfDay parseDateOnly localDayEnd
    simp only [sub_zero, add_zero]
    rw [Int.mul_fdiv_cancel _ (by decide : msPerDay ≠ 0)]

theorem runCatch_calls (env : QueryEnv) (m : String) (nR nF : Nat) :
    (runCatch env m nR nF).refreshCalls ≤ nR + 1 ∧
    (runCatch env m nR nF).fetchCalls ≤ nF + 1 := by
  unfold runCatch
  split
  · split
    · exact ⟨Nat.le_refl _, Nat.le_succ _⟩
    · exact ⟨Nat.le_refl _, Nat.le_succ _⟩
    · split
      · exact ⟨Nat.le_refl _, Nat.le_refl _⟩
      · exact ⟨Nat.le_refl _, Nat.le_refl _⟩
  · exact ⟨Nat.le_succ _, Nat.le_succ _⟩

/-- An environment in which the token is pre-expired, the proactive
refresh succeeds, and every events request fails with a message
containing the keyword `401`. -/
def envDoubleRefresh : QueryEnv :=
  { tokenExpired := true
    hasRefresh := true
    refreshResults := fun _ => .ok "t2"
    fetchResults := fun _ => .err "401 unauthorized" }

/-- C1 counterexample: in a single invocation of the query function whose
first events request fails with an error classified as an auth error, the
code performs TWO token refreshes (the proactive pre-fetch refresh plus
the reactive one in the catch block) and two events requests, refuting
"no invocation ever performs two token refreshes". -/
theorem queryFn_two_refreshes_cex :
    (queryFn envDoubleRefresh).refreshCalls = 2 ∧
    (queryFn envDoubleRefresh).fetchCalls = 2 ∧
    isAuthErrorMsg "401 unauthorized" = true ∧
    (queryFn envDoubleRefresh).result =
      .error "Authentication failed. Please sign in again." :=
  ⟨rfl, rfl, by decide, rfl⟩

/-- C1 (amended): per invocation of the query function, at most two
events-endpoint requests are issued and at most two refreshes are
performed — at most ONE refresh when the proactive expiry check did not
fire; a second refresh can only occur after the proactive pre-fetch
refresh, and a failing retry settles as an error with no further refresh
or request. -/
theorem queryFn_bounded_retries (env : QueryEnv) :
    (queryFn env).fetchCalls ≤ 2 ∧
    (queryFn env).refreshCalls ≤ (if env.tokenExpired then 2 else 1) := by
  unfold queryFn
  split
  · split
    · split
      · exact ⟨Nat.le_trans (runCatch_calls env _ 1 0).2 (by omega),
          (runCatch_calls env _ 1 0).1⟩
      · exact ⟨Nat.le_trans (runCatch_calls env _ 1 0).2 (by omega),
          (runCatch_calls env _ 1 0).1⟩
      · split
        · exact ⟨by simp, by simp⟩
        · exact ⟨(runCatch_calls env _ 1 1).2, (runCatch_calls env _ 1 1).1⟩
    · exact ⟨Nat.le_trans (runCatch_calls env _ 0 0).2 (by omega),
        Nat.le_trans (runCatch_calls env _ 0 0).1 (by omega)⟩
  · split
    · exact ⟨by simp, by simp⟩
    · exact ⟨(runCatch_calls env _ 0 1).2, (runCatch_calls env _ 0 1).1⟩
